import Mathlib

/-!
Shallow embedding of the job-queue / dispatch-retry / status-tracking core of
the `appmax-desafio` repository (`api/helpers/queue.js`, `api/helpers/service-router.js`,
`api/helpers/redis.js`), together with theorems settling the frozen claims
about it.

Conventions of the embedding:
* JavaScript async functions are modelled as pure Lean functions; the
  cooperative single-threaded drain loop becomes explicit sequential
  recursion, and the observable side effects (handler invocations, logged
  errors, status-store writes, fixed 1000 ms retry delays) are recorded in
  returned traces and counters.
* A handler (registered service) is modelled as a function from the attempt
  index (how many times it has been invoked so far in this run) to an
  `Except` result, so that "fails k times then succeeds" scenarios are
  expressible.
* `Date.now()` is modelled by an explicit clock parameter `t` (epoch millis);
  the only modelled passage of time is the fixed 1000 ms retry delay.
* A JavaScript value that may be `null`/absent is an `Option`; the
  `position` field of a status record is `Option (Option Nat)` because JS
  distinguishes an absent field (outer `none`) from a field holding `null`
  (`some none`).
-/

namespace AppmaxDesafio

/-! ### Job queue

Modelled from the spec: the file `api/helpers/queue.js` is imported by
`service-router.js` and exercised by the Queue test suite, but its own source
is absent from the repository snapshot.  The model below follows the spec
section 4.1 (enqueue appends and returns a fresh id; `drain`/`process` is a
no-op when already running, otherwise pops head jobs one at a time, awaits
each action, logs `Error processing queue item` on failure and continues;
`positionOf`/`getPosition` is the zero-based index of a pending job or null
when absent) using the member names the test suite observes (`queue`,
`running`, `add`, `process`, `getSize`, `getPosition`).  Fresh ids are
modelled by a counter instead of random UUIDs; the optional `onUpdate`
subscription mechanism is not modelled because no claim concerns it. -/

/-- One queued unit of work: fresh id, payload, and the action to execute.
The action is modelled as a pure function from the payload to an `Except`
result (the settled value of the awaited async callback). -/
structure Job (δ ε ρ : Type) where
  id : Nat
  data : δ
  callback : δ → Except ε ρ

/-- Queue state: ordered pending list, the re-entry guard flag, and the
counter supplying fresh ids. -/
structure QueueState (δ ε ρ : Type) where
  queue : List (Job δ ε ρ)
  running : Bool
  nextId : Nat

namespace Queue

/-- A freshly constructed queue: empty, not running. -/
def init : QueueState δ ε ρ :=
  { queue := [], running := false, nextId := 0 }

/-- Modelled from the spec: `add({data, callback})` pushes a job with a fresh
id onto the tail and returns the id.  The call to `process()` that `add`
fires asynchronously is modelled as the separate `process` step below
(enqueuing itself never blocks). -/
def add (s : QueueState δ ε ρ) (data : δ) (callback : δ → Except ε ρ) :
    QueueState δ ε ρ × Nat :=
  ({ s with queue := s.queue ++ [⟨s.nextId, data, callback⟩], nextId := s.nextId + 1 },
   s.nextId)

/-- Enqueue a list of (payload, action) pairs in order, returning the ids in
submission order. -/
def addAll (s : QueueState δ ε ρ) :
    List (δ × (δ → Except ε ρ)) → QueueState δ ε ρ × List Nat
  | [] => (s, [])
  | (d, cb) :: rest =>
      let p := add s d cb
      let q := addAll p.1 rest
      (q.1, p.2 :: q.2)

/-- Observable events of a drain run: a job handler invocation starting, a
logged processing error, a job finishing (leaving the queue). -/
inductive Event where
  | start (id : Nat)
  | errorLogged (id : Nat)
  | finish (id : Nat)
deriving DecidableEq, Repr

/-- Modelled from the spec: the body of the drain loop.  While the list is
non-empty: pop the head job, await its action on its payload, on error log
`Error processing queue item` and continue with the next job, on success
continue as well.  Produces the trace of observable events. -/
def drainLoop : List (Job δ ε ρ) → List Event
  | [] => []
  | j :: rest =>
      (match j.callback j.data with
       | Except.ok _ => [Event.start j.id, Event.finish j.id]
       | Except.error _ => [Event.start j.id, Event.errorLogged j.id, Event.finish j.id])
      ++ drainLoop rest

/-- Modelled from the spec: `process()` is a no-op when already running
(idempotent re-entry guard); otherwise it sets `running`, drains the pending
list sequentially, and clears `running` once the list is empty. -/
def process (s : QueueState δ ε ρ) : QueueState δ ε ρ × List Event :=
  if s.running then (s, [])
  else ({ s with queue := [] }, drainLoop s.queue)

/-- Modelled from the spec: current length of the pending list. -/
def getSize (s : QueueState δ ε ρ) : Nat :=
  s.queue.length

/-- Modelled from the spec: zero-based index of the job with the given id in
the pending list, or null (`none`) when absent (already processed or unknown
id). -/
def getPosition (s : QueueState δ ε ρ) (id : Nat) : Option Nat :=
  s.queue.findIdx? (fun j => j.id == id)

/-- Ids of the jobs whose handler invocation started, in trace order. -/
def startIds (evs : List Event) : List Nat :=
  evs.filterMap (fun e => match e with
    | Event.start i => some i
    | _ => none)

/-- Number of `start` events in a trace. -/
def startCount (evs : List Event) : Nat :=
  (evs.filter (fun e => match e with
    | Event.start _ => true
    | _ => false)).length

/-- Number of `finish` events in a trace. -/
def finishCount (evs : List Event) : Nat :=
  (evs.filter (fun e => match e with
    | Event.finish _ => true
    | _ => false)).length

/-- Mutual-exclusion check over a trace: reading the events left to right
with `n` handler invocations currently in flight, a `start` may occur only
when nothing is in flight (and brings one invocation in flight) and a
`finish` only when exactly one is.  A trace accepted from `n = 0` therefore
never has two handler invocations in flight at the same time. -/
def singleFlight : Nat → List Event → Bool
  | _, [] => true
  | n, Event.start _ :: rest => n == 0 && singleFlight 1 rest
  | n, Event.finish _ :: rest => n == 1 && singleFlight 0 rest
  | n, Event.errorLogged _ :: rest => singleFlight n rest

end Queue

/-! ### Status records and the redis-backed status store (`redis.js` get/set
with a namespace prefix; consumed only as a key-value store). -/

/-- Persisted job lifecycle snapshot, keyed by job id.  `position` is
`none` when the field is absent from the written object (terminal success
write), `some none` when it holds JS `null`, `some (some p)` when it holds a
number `p`. -/
structure StatusRecord (ρ : Type) where
  data : Option ρ
  completed : Bool
  position : Option (Option Nat)
  timestamp : Nat
deriving DecidableEq, Repr

/-! ### Dispatcher (ServiceRouter) callbacks

`api/helpers/service-router.js` contains two versions of the class: the
original one (unbounded retry) and the revised one (bounded retry with
`maxRetries`).  Both build, per dispatched request, a recursive async
callback that (1) throws `Service not found.` when no handler is registered
under the service name, (2) otherwise invokes the handler, and on success
writes the terminal status record and returns the result, (3) on failure
logs, waits 1000 ms and re-invokes itself — unconditionally in the original,
only while `retryCount < maxRetries` in the revised version, which otherwise
throws a `Service failed after ... retries` error. -/

/-- Errors thrown by the dispatcher callback itself (as opposed to errors of
type `ε` thrown by the registered handler).  `outOfFuel` is a modelling
artifact for the unbounded original recursion, unreachable whenever the
handler eventually succeeds within the supplied fuel. -/
inductive CallbackError (ε : Type) where
  | serviceNotFound
  | retryExhausted (maxRetries : Nat) (last : ε)
  | outOfFuel
deriving DecidableEq, Repr

/-- Everything observable about one run of a dispatcher callback: how many
times the callback itself was entered, how many times the registered handler
was invoked, how many fixed 1000 ms retry delays elapsed, the status-store
writes it issued (in order), and the settled result. -/
structure RunOutcome (ε ρ : Type) where
  callbackCalls : Nat
  handlerCalls : Nat
  delays : Nat
  writes : List (StatusRecord ρ)
  result : Except (CallbackError ε) ρ
deriving Repr

/-- The terminal status record written on handler success:
`{ data: service, completed: true, timestamp: Date.now() }` (no position
field). -/
def successRecord (r : ρ) (t : Nat) : StatusRecord ρ :=
  { data := some r, completed := true, position := none, timestamp := t }

/-- The revised (bounded-retry) dispatcher callback of the second
`ServiceRouter` definition.  `service` is the registry lookup
`ServiceRouter.services[serviceName]` (`none` when unregistered), `t` the
current clock, `retryCount` the attempt counter (0 on the initial call). -/
def callbackRevised (service : Option (Nat → Except ε ρ)) (maxRetries : Nat)
    (t : Nat) (retryCount : Nat) : RunOutcome ε ρ :=
  match service with
  | none =>
      { callbackCalls := 1, handlerCalls := 0, delays := 0, writes := [],
        result := Except.error CallbackError.serviceNotFound }
  | some handler =>
      match handler retryCount with
      | Except.ok r =>
          { callbackCalls := 1, handlerCalls := 1, delays := 0,
            writes := [successRecord r t], result := Except.ok r }
      | Except.error e =>
          if h : retryCount ≥ maxRetries then
            { callbackCalls := 1, handlerCalls := 1, delays := 0, writes := [],
              result := Except.error (CallbackError.retryExhausted maxRetries e) }
          else
            let rest := callbackRevised service maxRetries (t + 1000) (retryCount + 1)
            { callbackCalls := rest.callbackCalls + 1,
              handlerCalls := rest.handlerCalls + 1,
              delays := rest.delays + 1,
              writes := rest.writes,
              result := rest.result }
termination_by maxRetries - retryCount
decreasing_by simp_wf; omega

/-- The original (unbounded-retry) dispatcher callback of the first
`ServiceRouter` definition.  Its recursion has no bound in the source, so the
model carries explicit fuel; running out of fuel yields the `outOfFuel`
marker, which never happens when the handler succeeds within the fuel. -/
def callbackOriginal (service : Option (Nat → Except ε ρ)) (t : Nat)
    (attempt : Nat) : Nat → RunOutcome ε ρ
  | 0 =>
      { callbackCalls := 0, handlerCalls := 0, delays := 0, writes := [],
        result := Except.error CallbackError.outOfFuel }
  | fuel + 1 =>
      match service with
      | none =>
          { callbackCalls := 1, handlerCalls := 0, delays := 0, writes := [],
            result := Except.error CallbackError.serviceNotFound }
      | some handler =>
          match handler attempt with
          | Except.ok r =>
              { callbackCalls := 1, handlerCalls := 1, delays := 0,
                writes := [successRecord r t], result := Except.ok r }
          | Except.error _ =>
              let rest := callbackOriginal service (t + 1000) (attempt + 1) fuel
              { callbackCalls := rest.callbackCalls + 1,
                handlerCalls := rest.handlerCalls + 1,
                delays := rest.delays + 1,
                writes := rest.writes,
                result := rest.result }

/-! ### Dispatcher position and status lookup -/

/-- `getPosition()` of the original `ServiceRouter`:
`return ServiceRouter.queue.getPosition(this.id) + 1;`.  When the queue
returns `null`, JavaScript evaluates `null + 1` to `1` (null coerces to 0),
so the original method always returns a number. -/
def routerGetPositionOriginal (s : QueueState δ ε ρ) (id : Nat) : Nat :=
  (Queue.getPosition s id).getD 0 + 1

/-- `getPosition()` of the revised `ServiceRouter`:
`const pos = ServiceRouter.queue.getPosition(this.id); return pos !== null ? pos + 1 : null;`. -/
def routerGetPositionRevised (s : QueueState δ ε ρ) (id : Nat) : Option Nat :=
  (Queue.getPosition s id).map (· + 1)

/-- The initial status record written by the revised constructor right after
enqueuing: `{ data: null, position: this.getPosition(), timestamp: Date.now(),
completed: false }`. -/
def initialStatusRecord (s : QueueState δ ε ρ) (id : Nat) (t : Nat) :
    StatusRecord ρ :=
  { data := none, completed := false,
    position := some (routerGetPositionRevised s id), timestamp := t }

/-- The record a caller polling the status of job `id` ends up reading: the
last status-store write for that id, which is the last write of the callback
run when there is one and otherwise the initial record. -/
def finalRecord (init : StatusRecord ρ) (writes : List (StatusRecord ρ)) :
    StatusRecord ρ :=
  writes.getLastD init

/-- Static `ServiceRouter.getService(id)` (identical in both versions):
read the stored record (`redis.get` returns the parsed value or `null`);
when a record exists and is not completed, overwrite its position field with
the live queue position; return the record, or `null` when none exists. -/
def getService (stored : Option (StatusRecord ρ)) (s : QueueState δ ε ρ)
    (id : Nat) : Option (StatusRecord ρ) :=
  match stored with
  | none => none
  | some sr =>
      if sr.completed then some sr
      else some { sr with position := some (Queue.getPosition s id) }

/-! ### maxRetries resolution

The revised constructor resolves the retry bound with
`const maxRetries = parseInt(process.env.MAX_RETRIES || '5');`. -/

/-- Numeric value of a list of decimal digit characters. -/
def natOfDigits (cs : List Char) : Nat :=
  cs.foldl (fun a c => 10 * a + (c.toNat - 48)) 0

/-- Value of the longest leading run of decimal digits, or `none` (NaN) when
there is no leading digit. -/
def parseIntDigits (cs : List Char) : Option Nat :=
  let ds := cs.takeWhile Char.isDigit
  if ds.isEmpty then none else some (natOfDigits ds)

/-- JavaScript `parseInt(s)` on base-10 input: skip leading whitespace, read
an optional sign and then the longest run of decimal digits; NaN (`none`)
when no digit follows.  (The JS special case of a leading `0x` switching to
base 16 is not modelled; no configuration value in the claims uses it.) -/
def parseIntJS (s : String) : Option Int :=
  let cs := s.data.dropWhile Char.isWhitespace
  match cs with
  | '-' :: rest => (parseIntDigits rest).map (fun n => -(n : Int))
  | '+' :: rest => (parseIntDigits rest).map (fun n => (n : Int))
  | _ => (parseIntDigits cs).map (fun n => (n : Int))

/-- JavaScript `a || b` for an optional environment string: `undefined` and
the empty string are falsy, any other string is truthy. -/
def jsOrDefault (env : Option String) (d : String) : String :=
  match env with
  | none => d
  | some s => if s = "" then d else s

/-- The resolved retry bound of the revised constructor:
`parseInt(process.env.MAX_RETRIES || '5')`.  `none` models NaN. -/
def resolveMaxRetries (env : Option String) : Option Int :=
  parseIntJS (jsOrDefault env "5")

/-- A concrete queue state used to evaluate the theorems on a sample input:
one pending job with id 5 at the head (zero-based position 0), the drain loop
busy with an earlier job, the id counter at 6. -/
def sampleQueue : QueueState Nat Unit Nat :=
  { queue := [⟨5, 0, fun d => Except.ok d⟩], running := true, nextId := 6 }

/-- Three concrete submissions (payload, action) used to evaluate the FIFO
theorem: two succeeding actions and one failing one. -/
def sampleReqs : List (Nat × (Nat → Except Unit Nat)) :=
  [(1, fun d => Except.ok d), (2, fun d => Except.ok d), (3, fun _ => Except.error ())]

/-- A concrete handler that always fails (rejects on every attempt). -/
def failHandler : Nat → Except Unit Nat :=
  fun _ => Except.error ()

/-- A concrete handler that fails on attempt 0 and succeeds with 42 from
attempt 1 on. -/
def sampleHandler : Nat → Except Unit Nat :=
  fun i => if i = 0 then Except.error () else Except.ok 42

/-! ### Queue lemmas -/

theorem Queue.startIds_append (a b : List Queue.Event) :
    Queue.startIds (a ++ b) = Queue.startIds a ++ Queue.startIds b :=
  List.filterMap_append a b _

theorem Queue.startIds_drainLoop (jobs : List (Job δ ε ρ)) :
    Queue.startIds (Queue.drainLoop jobs) = jobs.map Job.id := by
  induction jobs with
  | nil => rfl
  | cons j rest ih =>
      rw [Queue.drainLoop]
      cases h : j.callback j.data <;>
        simp only [Queue.startIds_append, ih, List.map_cons] <;>
        rfl

theorem Queue.addAll_running (s : QueueState δ ε ρ)
    (l : List (δ × (δ → Except ε ρ))) :
    (Queue.addAll s l).1.running = s.running := by
  induction l generalizing s with
  | nil => rfl
  | cons x rest ih =>
      obtain ⟨d, cb⟩ := x
      simpa [Queue.addAll, Queue.add] using ih _

theorem Queue.addAll_map_id (s : QueueState δ ε ρ)
    (l : List (δ × (δ → Except ε ρ))) :
    ((Queue.addAll s l).1.queue).map Job.id
      = s.queue.map Job.id ++ (Queue.addAll s l).2 := by
  induction l generalizing s with
  | nil => simp [Queue.addAll]
  | cons x rest ih =>
      obtain ⟨d, cb⟩ := x
      simp [Queue.addAll, Queue.add, ih]

theorem Queue.singleFlight_drainLoop (jobs : List (Job δ ε ρ)) :
    Queue.singleFlight 0 (Queue.drainLoop jobs) = true := by
  induction jobs with
  | nil => rfl
  | cons j rest ih =>
      rw [Queue.drainLoop]
      cases h : j.callback j.data <;> simpa [Queue.singleFlight] using ih

/-! ### Claim theorems -/

/-- C1: for every starting state whose drain loop is idle and every sequence
of enqueued jobs, processing invokes the job actions in exactly the order the
jobs were enqueued (strict FIFO): the trace of handler invocation starts
lists the previously pending ids followed by the freshly returned ids, in
submission order. -/
theorem queue_drains_in_enqueue_order (s : QueueState δ ε ρ)
    (reqs : List (δ × (δ → Except ε ρ))) (h : s.running = false) :
    Queue.startIds (Queue.process (Queue.addAll s reqs).1).2
      = s.queue.map Job.id ++ (Queue.addAll s reqs).2 := by
  have hrun : (Queue.addAll s reqs).1.running = false := by
    rw [Queue.addAll_running, h]
  simp [Queue.process, hrun, Queue.startIds_drainLoop, Queue.addAll_map_id]

/-- Witness for C1: three concrete submissions into a fresh queue are started
in submission order, with the ids 0, 1, 2 handed out by `add`. -/
theorem queue_drains_in_enqueue_order_sample :
    Queue.startIds (Queue.process
        (Queue.addAll (Queue.init : QueueState Nat Unit Nat) sampleReqs).1).2
      = [0, 1, 2] :=
  (queue_drains_in_enqueue_order (Queue.init : QueueState Nat Unit Nat)
    sampleReqs rfl).trans rfl

/-- C9: the `running` flag is the sole mutual-exclusion device: a `process`
call while a drain is already running is a no-op (returns the state unchanged
and performs nothing), and the event trace of any `process` run keeps at most
one handler invocation in flight at every point (a start occurs only when
nothing is in flight), so no two job actions overlap. -/
theorem at_most_one_action_in_flight (s : QueueState δ ε ρ) :
    (s.running = true → Queue.process s = (s, [])) ∧
    Queue.singleFlight 0 (Queue.process s).2 = true := by
  constructor
  · intro h
    simp [Queue.process, h]
  · by_cases h : s.running <;>
      simp [Queue.process, h, Queue.singleFlight, Queue.singleFlight_drainLoop]

/-- Witness for C9 at a concrete busy queue: `process` on a state with
`running = true` changes nothing and produces no events. -/
theorem at_most_one_action_in_flight_sample :
    Queue.process sampleQueue = (sampleQueue, []) ∧
    Queue.singleFlight 0 (Queue.process sampleQueue).2 = true :=
  ⟨(at_most_one_action_in_flight sampleQueue).1 rfl,
   (at_most_one_action_in_flight sampleQueue).2⟩

/-- C5 counterexample: in the original `ServiceRouter`, `getPosition()` on a
job the queue can no longer locate does not return null: `null + 1`
evaluates to 1 in JavaScript, so the method returns 1 for an absent job
(here: id 7 against an empty queue). -/
theorem original_getPosition_one_when_absent :
    Queue.getPosition (Queue.init : QueueState Nat Unit Nat) 7 = none ∧
    routerGetPositionOriginal (Queue.init : QueueState Nat Unit Nat) 7 = 1 := by
  decide

/-- C5 amended: the revised `getPosition()` returns the 1-based rank
(zero-based queue index + 1) while the job is pending, and null exactly when
no pending job carries the id; the original version instead returns 1 for an
absent job, since JS `null + 1` is 1. -/
theorem revised_getPosition_rank_or_null (s : QueueState δ ε ρ) (id : Nat) :
    (routerGetPositionRevised s id = none ↔ ∀ j ∈ s.queue, j.id ≠ id) ∧
    ∀ i, routerGetPositionRevised s id = some (i + 1) ↔
      ∃ h : i < s.queue.length, (s.queue.get ⟨i, h⟩).id = id ∧
        ∀ (j : Nat) (hj : j < i), (s.queue.get ⟨j, by omega⟩).id ≠ id := by
  constructor
  · simp [routerGetPositionRevised, Queue.getPosition, Option.map_eq_none',
      List.findIdx?_eq_none_iff]
  · intro i
    simp only [routerGetPositionRevised, Queue.getPosition, Option.map_eq_some']
    constructor
    · rintro ⟨a, ha, hEq⟩
      have haEq : a = i := by omega
      subst haEq
      rw [List.findIdx?_eq_some_iff_getElem] at ha
      obtain ⟨hlt, hp, hprev⟩ := ha
      refine ⟨hlt, by simpa using hp, ?_⟩
      intro j hj
      simpa using hprev j hj
    · rintro ⟨hlt, hid, hprev⟩
      refine ⟨i, ?_, rfl⟩
      rw [List.findIdx?_eq_some_iff_getElem]
      exact ⟨hlt, by simpa using hid, fun j hj => by simpa using hprev j hj⟩

/-- Witness for C5 (amended) on a concrete queue: id 9 is not pending in
`sampleQueue`, so the revised `getPosition` returns null. -/
theorem revised_getPosition_rank_or_null_sample :
    routerGetPositionRevised sampleQueue 9 = none :=
  (revised_getPosition_rank_or_null sampleQueue 9).1.mpr (by decide)

/-- C6: `getService(id)` returns null when no record is stored under the id;
a stored completed record is returned unchanged (the live queue position is
not consulted); a stored not-completed record is returned with its position
field overwritten by the live queue position. -/
theorem getService_lookup_spec (stored : Option (StatusRecord ρ))
    (s : QueueState δ ε ρ) (id : Nat) :
    (stored = none → getService stored s id = none) ∧
    (∀ sr, stored = some sr → sr.completed = true →
      getService stored s id = some sr) ∧
    (∀ sr, stored = some sr → sr.completed = false →
      getService stored s id
        = some { sr with position := some (Queue.getPosition s id) }) := by
  refine ⟨fun h => by simp [h, getService],
    fun sr h hc => by simp [h, getService, hc],
    fun sr h hc => by simp [h, getService, hc]⟩

/-- Witness for C6 at a concrete completed record: the record comes back
unchanged, position field still absent. -/
theorem getService_lookup_spec_sample :
    getService (some (successRecord 3 0)) sampleQueue 5 = some (successRecord 3 0) :=
  (getService_lookup_spec (some (successRecord 3 0)) sampleQueue 5).2.1
    (successRecord 3 0) rfl rfl

/-- C4 counterexample: with MAX_RETRIES set to the string `-3`, the resolved
bound is -3, not the default 5 — `parseInt(env || fallback)` only falls back
when the variable is absent or empty, never when its value is invalid. -/
theorem maxRetries_invalid_not_defaulted :
    resolveMaxRetries (some "-3") = some (-3) ∧
    resolveMaxRetries (some "-3") ≠ some 5 := by
  decide

/-- C4 amended: the resolved retry bound is 5 when the configuration variable
is absent or empty; otherwise it is JS `parseInt` of the configured string
with no validity fallback — a decimal string yields its value (e.g. 7), a
non-numeric string yields NaN, and a negative string stays negative. -/
theorem maxRetries_resolution_behavior :
    resolveMaxRetries none = some 5 ∧
    resolveMaxRetries (some "") = some 5 ∧
    (∀ v : String, v ≠ "" → resolveMaxRetries (some v) = parseIntJS v) ∧
    resolveMaxRetries (some "7") = some 7 ∧
    resolveMaxRetries (some "abc") = none := by
  refine ⟨by decide, by decide,
    fun v hv => by simp [resolveMaxRetries, jsOrDefault, hv],
    by decide, by decide⟩

/-- Witness for C4 (amended): a present non-empty value is parsed as-is. -/
theorem maxRetries_resolution_behavior_sample :
    resolveMaxRetries (some "9") = parseIntJS "9" :=
  maxRetries_resolution_behavior.2.2.1 "9" (by decide)

/-- C7 counterexample: for the pending job with id 5 at zero-based queue
index 0, the initial StatusRecord stores position 1 (index + 1), but
`getService` overwrites the position field with the raw queue value 0 — the
two exposed positions disagree, so they cannot both be the 1-based rank. -/
theorem status_positions_disagree_concrete :
    (initialStatusRecord sampleQueue 5 0).position = some (some 1) ∧
    getService (some (initialStatusRecord sampleQueue 5 0)) sampleQueue 5
      = some { data := none, completed := false, position := some (some 0),
               timestamp := 0 } := by
  decide

/-- C7 amended: for a job pending at zero-based queue position p, the initial
StatusRecord written by the constructor carries position p + 1, while
`getService` on that record overwrites the field with the raw queue position
p — the two position conventions the code exposes differ by one. -/
theorem initial_and_lookup_positions_differ (s : QueueState δ ε ρ)
    (id p t : Nat) (h : Queue.getPosition s id = some p) :
    (initialStatusRecord s id t : StatusRecord ρ).position = some (some (p + 1)) ∧
    getService (some (initialStatusRecord s id t)) s id
      = some { data := none, completed := false, position := some (some p),
               timestamp := t } := by
  constructor
  · simp [initialStatusRecord, routerGetPositionRevised, h]
  · simp [getService, initialStatusRecord, routerGetPositionRevised, h]

/-- Witness for C7 (amended) at the sample queue: job 5 pends at zero-based
position 0; the initial record says 1, the lookup rewrites it to 0. -/
theorem initial_and_lookup_positions_differ_sample :
    (initialStatusRecord sampleQueue 5 0 : StatusRecord Nat).position
      = some (some (0 + 1)) ∧
    getService (some (initialStatusRecord sampleQueue 5 0)) sampleQueue 5
      = some { data := none, completed := false, position := some (some 0),
               timestamp := 0 } :=
  initial_and_lookup_positions_differ sampleQueue 5 0 0 (by decide)

/-! ### Retry-run lemmas -/

theorem callbackRevised_allFail (handler : Nat → Except ε ρ) (maxRetries : Nat) :
    ∀ (fuel rc t : Nat), maxRetries - rc = fuel → rc ≤ maxRetries →
      (∀ i, rc ≤ i → i ≤ maxRetries → ∃ e, handler i = Except.error e) →
      ∃ e, callbackRevised (some handler) maxRetries t rc =
        { callbackCalls := maxRetries + 1 - rc, handlerCalls := maxRetries + 1 - rc,
          delays := maxRetries - rc, writes := [],
          result := Except.error (CallbackError.retryExhausted maxRetries e) } := by
  intro fuel
  induction fuel with
  | zero =>
      intro rc t hfuel hle hfail
      have hrc : rc = maxRetries := by omega
      subst hrc
      obtain ⟨e, he⟩ := hfail rc le_rfl le_rfl
      refine ⟨e, ?_⟩
      rw [callbackRevised]
      simp [he]
  | succ n ih =>
      intro rc t hfuel hle hfail
      have hlt : rc < maxRetries := by omega
      obtain ⟨e0, he0⟩ := hfail rc le_rfl hle
      obtain ⟨e, hrec⟩ := ih (rc + 1) (t + 1000) (by omega) (by omega)
        (fun i h1 h2 => hfail i (by omega) h2)
      refine ⟨e, ?_⟩
      rw [callbackRevised]
      simp only [he0, ge_iff_le]
      rw [dif_neg (by omega)]
      simp only [hrec]
      simp [RunOutcome.mk.injEq]
      all_goals omega

theorem callbackRevised_succeedsAt (handler : Nat → Except ε ρ)
    (maxRetries k : Nat) (r : ρ) (hk : k ≤ maxRetries)
    (hsucc : handler k = Except.ok r)
    (hfail : ∀ i, i < k → ∃ e, handler i = Except.error e) :
    ∀ (fuel rc t : Nat), k - rc = fuel → rc ≤ k →
      callbackRevised (some handler) maxRetries t rc =
        { callbackCalls := k + 1 - rc, handlerCalls := k + 1 - rc,
          delays := k - rc,
          writes := [successRecord r (t + 1000 * (k - rc))],
          result := Except.ok r } := by
  intro fuel
  induction fuel with
  | zero =>
      intro rc t hfuel hrck
      have hrc : rc = k := by omega
      subst hrc
      rw [callbackRevised]
      simp [hsucc]
  | succ n ih =>
      intro rc t hfuel hrck
      have hlt : rc < k := by omega
      obtain ⟨e0, he0⟩ := hfail rc hlt
      rw [callbackRevised]
      simp only [he0, ge_iff_le]
      rw [dif_neg (by omega)]
      simp only [ih (rc + 1) (t + 1000) (by omega) (by omega)]
      simp [RunOutcome.mk.injEq, successRecord]
      all_goals omega

theorem callbackOriginal_succeedsAt (handler : Nat → Except ε ρ) (k : Nat)
    (r : ρ) (hsucc : handler k = Except.ok r)
    (hfail : ∀ i, i < k → ∃ e, handler i = Except.error e) :
    ∀ (n rc t fuel : Nat), k - rc = n → rc ≤ k → k + 1 - rc ≤ fuel →
      callbackOriginal (some handler) t rc fuel =
        { callbackCalls := k + 1 - rc, handlerCalls := k + 1 - rc,
          delays := k - rc,
          writes := [successRecord r (t + 1000 * (k - rc))],
          result := Except.ok r } := by
  intro n
  induction n with
  | zero =>
      intro rc t fuel hn hrck hfuel
      have hrc : rc = k := by omega
      subst hrc
      obtain ⟨m, hm⟩ : ∃ m, fuel = m + 1 := ⟨fuel - 1, by omega⟩
      subst hm
      simp [callbackOriginal, hsucc]
  | succ n ih =>
      intro rc t fuel hn hrck hfuel
      have hlt : rc < k := by omega
      obtain ⟨e0, he0⟩ := hfail rc hlt
      obtain ⟨m, hm⟩ : ∃ m, fuel = m + 1 := ⟨fuel - 1, by omega⟩
      subst hm
      rw [callbackOriginal]
      simp only [he0]
      simp only [ih (rc + 1) (t + 1000) m (by omega) (by omega) (by omega)]
      simp [RunOutcome.mk.injEq, successRecord]
      all_goals omega

/-- C2: a handler that fails on every attempt 0..maxRetries is invoked
exactly maxRetries + 1 times; the run surfaces the retry-exhausted error and
issues no status-store write, so the record stored for the job stays at the
initial one (completed false, data null); and a drain of the failed job
followed by any unrelated job still starts the unrelated job. -/
theorem exhausted_retries_leave_record_pending (maxRetries t0 : Nat)
    (handler : Nat → Except ε ρ)
    (hfail : ∀ i, i ≤ maxRetries → ∃ e, handler i = Except.error e) :
    (callbackRevised (some handler) maxRetries t0 0).handlerCalls = maxRetries + 1 ∧
    (∃ e, (callbackRevised (some handler) maxRetries t0 0).result
        = Except.error (CallbackError.retryExhausted maxRetries e)) ∧
    (∀ (σ τ : Type) (s : QueueState σ τ ρ) (id t1 : Nat),
      finalRecord (initialStatusRecord s id t1)
          (callbackRevised (some handler) maxRetries t0 0).writes
        = initialStatusRecord s id t1 ∧
      (initialStatusRecord s id t1 : StatusRecord ρ).completed = false ∧
      (initialStatusRecord s id t1 : StatusRecord ρ).data = none) ∧
    (∀ (σ : Type) (i1 : Nat) (d : σ) (j2 : Job σ (CallbackError ε) ρ),
      Queue.startIds (Queue.drainLoop
        [⟨i1, d, fun _ => (callbackRevised (some handler) maxRetries t0 0).result⟩, j2])
        = [i1, j2.id]) := by
  obtain ⟨e, he⟩ := callbackRevised_allFail handler maxRetries maxRetries 0 t0
    (by omega) (by omega) (fun i h1 h2 => hfail i h2)
  refine ⟨?_, ⟨e, ?_⟩, ?_, ?_⟩
  · rw [he]
    simp
  · rw [he]
  · intro σ τ s id t1
    rw [he]
    exact ⟨rfl, rfl, rfl⟩
  · intro σ i1 d j2
    rw [Queue.startIds_drainLoop]
    simp

/-- Witness for C2: a handler rejecting on every attempt with maxRetries = 2
is invoked 3 times. -/
theorem exhausted_retries_leave_record_pending_sample :
    (callbackRevised (some failHandler) 2 0 0).handlerCalls = 3 :=
  (exhausted_retries_leave_record_pending 2 0 failHandler
    (fun _ _ => ⟨(), rfl⟩)).1

/-- C3: a handler that fails exactly k < maxRetries times and then succeeds
with r is invoked exactly k + 1 times; the run takes k fixed 1000 ms delays,
writes exactly one terminal record `{data: r, completed: true, timestamp:
now}` (now = start time plus the k delays), and returns r. -/
theorem eventual_success_writes_completed_record (maxRetries k t0 : Nat)
    (handler : Nat → Except ε ρ) (r : ρ) (hk : k < maxRetries)
    (hfail : ∀ i, i < k → ∃ e, handler i = Except.error e)
    (hsucc : handler k = Except.ok r) :
    callbackRevised (some handler) maxRetries t0 0 =
      { callbackCalls := k + 1, handlerCalls := k + 1, delays := k,
        writes := [successRecord r (t0 + 1000 * k)], result := Except.ok r } := by
  simpa using callbackRevised_succeedsAt handler maxRetries k r (by omega)
    hsucc hfail k 0 t0 (by omega) (by omega)

/-- Witness for C3: a handler failing once then returning 42, with
maxRetries = 2, is called twice and writes the completed record at t = 1000. -/
theorem eventual_success_writes_completed_record_sample :
    callbackRevised (some sampleHandler) 2 0 0 =
      { callbackCalls := 2, handlerCalls := 2, delays := 1,
        writes := [successRecord 42 1000], result := Except.ok 42 } :=
  eventual_success_writes_completed_record 2 1 0 sampleHandler 42 (by omega)
    (fun i hi => ⟨(), by
      have h0 : i = 0 := by omega
      subst h0
      rfl⟩) rfl

/-- C8: dispatching to a service name with no registered handler makes the
job action throw the service-not-found error on its single invocation — the
handler is never called, no 1000 ms retry delay is taken, no status write
occurs — and a drain of that job followed by any unrelated job still starts
the unrelated job. -/
theorem unregistered_service_fails_fast (maxRetries t : Nat) :
    callbackRevised (none : Option (Nat → Except ε ρ)) maxRetries t 0 =
      { callbackCalls := 1, handlerCalls := 0, delays := 0, writes := [],
        result := Except.error CallbackError.serviceNotFound } ∧
    ∀ (σ : Type) (i1 : Nat) (d : σ) (j2 : Job σ (CallbackError ε) ρ),
      Queue.startIds (Queue.drainLoop
        [⟨i1, d,
          fun _ => (callbackRevised (none : Option (Nat → Except ε ρ)) maxRetries t 0).result⟩,
         j2])
        = [i1, j2.id] := by
  refine ⟨by rw [callbackRevised], fun σ i1 d j2 => ?_⟩
  rw [Queue.startIds_drainLoop]
  simp

/-- C10: whenever the handler succeeds on some attempt k within the retry
budget (k ≤ maxRetries), the original unbounded-retry callback and the
revised bounded-retry callback produce identical runs: same number of
handler invocations, same delays, same terminal completed status write, same
returned result (any fuel covering the k + 1 attempts). -/
theorem original_and_revised_agree_on_success (maxRetries k t0 fuel : Nat)
    (handler : Nat → Except ε ρ) (r : ρ) (hk : k ≤ maxRetries)
    (hfuel : k + 1 ≤ fuel)
    (hfail : ∀ i, i < k → ∃ e, handler i = Except.error e)
    (hsucc : handler k = Except.ok r) :
    callbackOriginal (some handler) t0 0 fuel
      = callbackRevised (some handler) maxRetries t0 0 := by
  rw [callbackOriginal_succeedsAt handler k r hsucc hfail k 0 t0 fuel
        (by omega) (by omega) (by omega),
      callbackRevised_succeedsAt handler maxRetries k r hk hsucc hfail k 0 t0
        (by omega) (by omega)]

/-- Witness for C10: the fail-once-then-42 handler under maxRetries = 5 and
fuel 9 gives identical original and revised runs. -/
theorem original_and_revised_agree_on_success_sample :
    callbackOriginal (some sampleHandler) 0 0 9
      = callbackRevised (some sampleHandler) 5 0 0 :=
  original_and_revised_agree_on_success 5 1 0 9 sampleHandler 42 (by omega)
    (by omega)
    (fun i hi => ⟨(), by
      have h0 : i = 0 := by omega
      subst h0
      rfl⟩) rfl

end AppmaxDesafio
